import Mathlib

/-!
Shallow embedding of the real-time session relay of the conduit-service
backend: the `ConnectionManager` of `routers/messaging_router.py` and the
`VideoConnectionManager` of `routers/video_router.py`, together with the
handler functions wired around them.

Modelling conventions:
- a Python `dict` is an association list with unique keys, kept in
  insertion order (assignment to an existing key keeps its position,
  assignment to a fresh key appends; `del` removes the key);
- a WebSocket handle is an opaque `Nat` id; `await ws.send_text(...)`
  succeeds unless the handle is in a given `broken` list, in which case
  it raises (modelled as `Except.error ()` where the exception escapes,
  and as a skip where the source catches it with try/except);
- a delivery is recorded as the pair (websocket id, payload);
- external collaborators (the database, JSON parsing) are parameters:
  the participant list of an event is passed in, the stored-message
  record returned by the database is passed in.
-/

namespace Conduit

/-! Python dict primitives over association lists with unique keys. -/

namespace PyDict

variable {β : Type}

/-- Python dict lookup `l[k]` / `l.get(k)`: value at the first (unique)
occurrence of key `k`. -/
def lookup : List (String × β) → String → Option β
  | [], _ => none
  | p :: t, k => if p.1 = k then some p.2 else lookup t k

/-- Python `k in l` for a dict. -/
def containsKey (l : List (String × β)) (k : String) : Bool :=
  (lookup l k).isSome

/-- Python dict assignment `l[k] = v`: replaces the value at an existing
key in place, otherwise appends the new binding. -/
def setItem : List (String × β) → String → β → List (String × β)
  | [], k, v => [(k, v)]
  | p :: t, k, v => if p.1 = k then (k, v) :: t else p :: setItem t k v

/-- Python `del l[k]`: removes the binding for `k`. Since a dict cannot
hold a duplicate key, removing every occurrence coincides with deleting
the unique one. -/
def delItem : List (String × β) → String → List (String × β)
  | [], _ => []
  | p :: t, k => if p.1 = k then delItem t k else p :: delItem t k

theorem lookup_setItem_self (l : List (String × β)) (k : String) (v : β) :
    lookup (setItem l k v) k = some v := by
  induction l with
  | nil => simp [setItem, lookup]
  | cons p t ih =>
    by_cases h : p.1 = k
    · simp [setItem, h, lookup]
    · simp [setItem, h, lookup, ih]

theorem lookup_setItem_ne {l : List (String × β)} {k k' : String} {v : β}
    (h : k' ≠ k) : lookup (setItem l k v) k' = lookup l k' := by
  induction l with
  | nil => simp [setItem, lookup, Ne.symm h]
  | cons p t ih =>
    by_cases hp : p.1 = k
    · simp [setItem, hp, lookup, Ne.symm h, h]
    · by_cases hp' : p.1 = k'
      · simp [setItem, hp, lookup, hp', h]
      · simp [setItem, hp, lookup, hp', ih]

theorem lookup_delItem_self (l : List (String × β)) (k : String) :
    lookup (delItem l k) k = none := by
  induction l with
  | nil => simp [delItem, lookup]
  | cons p t ih =>
    by_cases h : p.1 = k
    · simp [delItem, h, ih]
    · simp [delItem, h, lookup, ih]

theorem lookup_delItem_ne {l : List (String × β)} {k k' : String}
    (h : k' ≠ k) : lookup (delItem l k) k' = lookup l k' := by
  induction l with
  | nil => simp [delItem]
  | cons p t ih =>
    by_cases hp : p.1 = k
    · have hp' : p.1 ≠ k' := fun h' => h (h' ▸ hp)
      simp [delItem, hp, lookup, hp', ih, Ne.symm h]
    · by_cases hp' : p.1 = k'
      · simp [delItem, hp, lookup, hp', h]
      · simp [delItem, hp, lookup, hp', ih]

end PyDict

/-! Embedding of `ConnectionManager` (messaging_router.py, lines 13 to 58).
The class also initializes an `event_connections` dict that no method of
the source ever reads or writes, so it is not part of the state. -/

/-- State of `ConnectionManager`: the `active_connections` websocket list
and the `user_connections` dict (user_id to websocket). -/
structure MsgState where
  active_connections : List Nat
  user_connections : List (String × Nat)
deriving Repr, DecidableEq

def MsgState.empty : MsgState := ⟨[], []⟩

/-- Source `ConnectionManager.connect` (lines 19 to 23): appends the
websocket to `active_connections` and installs it in `user_connections`
for `uid` (replacing a prior binding in place). -/
def connect (ws : Nat) (uid : String) (s : MsgState) : MsgState :=
  { active_connections := s.active_connections ++ [ws],
    user_connections := PyDict.setItem s.user_connections uid ws }

/-- Source `ConnectionManager.disconnect` (lines 25 to 30): removes the
websocket from `active_connections` when present (first occurrence, as
Python list.remove) and deletes the `user_connections` entry for `uid`
when present, regardless of which websocket it stores. -/
def disconnect (ws : Nat) (uid : String) (s : MsgState) : MsgState :=
  { active_connections := s.active_connections.erase ws,
    user_connections := PyDict.delItem s.user_connections uid }

/-- Source `ConnectionManager.send_personal_message` (lines 32 to 38):
looks up the connection for `uid`; when present, sends on it with no
surrounding try/except, so a broken websocket raises to the caller; when
absent, only logs. The Python function returns None on every non-raising
path. -/
def send_personal_message (broken : List Nat) (msg : String) (uid : String)
    (s : MsgState) : Except Unit (List (Nat × String)) :=
  match PyDict.lookup s.user_connections uid with
  | some ws => if ws ∈ broken then .error () else .ok [(ws, msg)]
  | none => .ok []

/-- The participant loop of `ConnectionManager.send_event_message`
(lines 42 to 54). Each participant record's `user_id` field may be
missing (`none`). The whole loop sits inside one try/except, so the
first raising `send_text` aborts the remaining iterations; the
deliveries made before the failure stand, and no exception escapes. -/
def sendEventLoop (broken : List Nat) (msg sender : String)
    (conns : List (String × Nat)) : List (Option String) → List (Nat × String)
  | [] => []
  | p :: ps =>
    match p with
    | some u =>
      if u ≠ "" ∧ u ≠ sender then
        match PyDict.lookup conns u with
        | some ws =>
          if ws ∈ broken then [] else (ws, msg) :: sendEventLoop broken msg sender conns ps
        | none => sendEventLoop broken msg sender conns ps
      else sendEventLoop broken msg sender conns ps
    | none => sendEventLoop broken msg sender conns ps

/-- Source `ConnectionManager.send_event_message` (lines 40 to 54): the
event's participant records come from the external database collaborator
(`db.get_event_participants`), passed here as `participants`; the
message goes to every participant other than the sender that has a
registered connection, subject to the single surrounding try/except. -/
def send_event_message (broken : List Nat) (msg : String)
    (participants : List (Option String)) (sender : String) (s : MsgState) :
    List (Nat × String) :=
  sendEventLoop broken msg sender s.user_connections participants

/-- Sending a payload to a list of websockets in order with no
try/except: the first broken websocket raises, abandoning the rest. -/
def sendAll (broken : List Nat) (msg : String) :
    List Nat → Except Unit (List (Nat × String))
  | [] => .ok []
  | ws :: t =>
    if ws ∈ broken then .error ()
    else
      match sendAll broken msg t with
      | .ok ds => .ok ((ws, msg) :: ds)
      | .error e => .error e

/-- Source `ConnectionManager.broadcast` (lines 56 to 58): sends to every
entry of `active_connections`, with no exclusion and no try/except. -/
def broadcast (broken : List Nat) (msg : String) (s : MsgState) :
    Except Unit (List (Nat × String)) :=
  sendAll broken msg s.active_connections

/-! Embedding of `VideoConnectionManager` and its handlers
(video_router.py). -/

/-- State of `VideoConnectionManager`: `active_connections` is a dict of
dicts (call_id to (user_id to websocket)), `call_participants` maps a
call_id to its ordered user list, `user_calls` is the inverse user to
call map. -/
structure VideoState where
  active_connections : List (String × List (String × Nat))
  call_participants : List (String × List String)
  user_calls : List (String × String)
deriving Repr, DecidableEq

def VideoState.empty : VideoState := ⟨[], [], []⟩

/-- Source `VideoConnectionManager.connect` (lines 19 to 30): ensures the
call's entries exist, installs the websocket under (call, user), appends
the user to the call's participant list when absent, and points
`user_calls` at this call. -/
def vconnect (ws : Nat) (call uid : String) (s : VideoState) : VideoState :=
  let ac :=
    if PyDict.containsKey s.active_connections call then s.active_connections
    else PyDict.setItem s.active_connections call []
  let cp :=
    if PyDict.containsKey s.call_participants call then s.call_participants
    else PyDict.setItem s.call_participants call []
  let inner := (PyDict.lookup ac call).getD []
  let members := (PyDict.lookup cp call).getD []
  { active_connections := PyDict.setItem ac call (PyDict.setItem inner uid ws),
    call_participants :=
      if members.contains uid then cp
      else PyDict.setItem cp call (members ++ [uid]),
    user_calls := PyDict.setItem s.user_calls uid call }

/-- Source `VideoConnectionManager.disconnect` (lines 32 to 40): removes
the (call, user) websocket entry when present, removes the user from the
call's participant list when present, and deletes the `user_calls`
entry. The emptied per-call entries are left in place. -/
def vdisconnect (call uid : String) (s : VideoState) : VideoState :=
  { active_connections :=
      match PyDict.lookup s.active_connections call with
      | some inner =>
        if PyDict.containsKey inner uid then
          PyDict.setItem s.active_connections call (PyDict.delItem inner uid)
        else s.active_connections
      | none => s.active_connections,
    call_participants :=
      match PyDict.lookup s.call_participants call with
      | some ms =>
        if ms.contains uid then
          PyDict.setItem s.call_participants call (ms.erase uid)
        else s.call_participants
      | none => s.call_participants,
    user_calls := PyDict.delItem s.user_calls uid }

/-- Source `video_manager.call_participants.get(call, [])`, the member
list the endpoints attach to user_joined and user_left envelopes. -/
def membersOf (s : VideoState) (call : String) : List String :=
  (PyDict.lookup s.call_participants call).getD []

/-- Outbound signaling envelopes built by video_router.py. -/
inductive Envelope where
  | user_joined (user_id : String) (participants : List String)
  | user_left (user_id : String) (participants : List String)
  | offerFwd (sdp : String) (from_user : String)
  | answerFwd (sdp : String) (from_user : String)
  | iceFwd (candidate : String) (from_user : String)
  | muteState (kind : String) (user_id : String)
  | videoToggle (user_id : String) (video_enabled : Bool)
  | call_ended (ended_by : String)
deriving Repr, DecidableEq

/-- The loop body of `VideoConnectionManager.send_to_call` (lines 43 to
50) over the items of one call's inner dict: skips the excluded user,
and each send sits in its own try/except, so a broken websocket is
skipped without affecting the rest. -/
def sendToItems (broken : List Nat) (env : Envelope) (exclude : Option String) :
    List (String × Nat) → List (Nat × Envelope)
  | [] => []
  | p :: t =>
    if some p.1 ≠ exclude then
      if p.2 ∈ broken then sendToItems broken env exclude t
      else (p.2, env) :: sendToItems broken env exclude t
    else sendToItems broken env exclude t

/-- Source `VideoConnectionManager.send_to_call` (lines 42 to 50):
iterates the call's registered (user, websocket) pairs; `exclude = none`
models the default `exclude_user=None`, which excludes nobody. -/
def send_to_call (broken : List Nat) (call : String) (env : Envelope)
    (exclude : Option String) (s : VideoState) : List (Nat × Envelope) :=
  match PyDict.lookup s.active_connections call with
  | some inner => sendToItems broken env exclude inner
  | none => []

/-- Source `VideoConnectionManager.send_to_user` (lines 52 to 58): sends
to the one websocket registered under (call, uid) when it exists, inside
a try/except, so a missing entry or a broken websocket delivers nothing
and raises nothing. -/
def send_to_user (broken : List Nat) (call uid : String) (env : Envelope)
    (s : VideoState) : List (Nat × Envelope) :=
  match PyDict.lookup s.active_connections call with
  | some inner =>
    match PyDict.lookup inner uid with
    | some ws => if ws ∈ broken then [] else [(ws, env)]
    | none => []
  | none => []

/-- The websocket registered for `uid` in `call`, when any: the nested
membership test of `send_to_user`. -/
def registeredConn (s : VideoState) (call uid : String) : Option Nat :=
  (PyDict.lookup s.active_connections call).bind fun inner =>
    PyDict.lookup inner uid

/-- Parsed inbound signaling messages of `handle_video_message`; a
`target_user` field that is missing or null parses to `none`, while the
empty string is a present but falsy value. -/
inductive InMsg where
  | offer (target_user : Option String) (sdp : String)
  | answer (target_user : Option String) (sdp : String)
  | ice_candidate (target_user : Option String) (candidate : String)
  | mute
  | unmute
  | video_toggle (video_enabled : Bool)
deriving Repr, DecidableEq

/-- Source `handle_video_message` (lines 97 to 169): offer and answer go
`send_to_user` to the target when the target field is truthy and are
otherwise dropped; ice_candidate goes to the target when truthy, else to
the whole call excluding the sender; mute, unmute and video_toggle go to
the whole call excluding the sender. -/
def handle_video_message (broken : List Nat) (m : InMsg) (call sender : String)
    (s : VideoState) : List (Nat × Envelope) :=
  match m with
  | .offer target sdp =>
    match target with
    | some t => if t ≠ "" then send_to_user broken call t (.offerFwd sdp sender) s else []
    | none => []
  | .answer target sdp =>
    match target with
    | some t => if t ≠ "" then send_to_user broken call t (.answerFwd sdp sender) s else []
    | none => []
  | .ice_candidate target cand =>
    match target with
    | some t =>
      if t ≠ "" then send_to_user broken call t (.iceFwd cand sender) s
      else send_to_call broken call (.iceFwd cand sender) (some sender) s
    | none => send_to_call broken call (.iceFwd cand sender) (some sender) s
  | .mute => send_to_call broken call (.muteState "mute" sender) (some sender) s
  | .unmute => send_to_call broken call (.muteState "unmute" sender) (some sender) s
  | .video_toggle en =>
    send_to_call broken call (.videoToggle sender en) (some sender) s

/-- Source `video_websocket_endpoint`, WebSocketDisconnect branch (lines
83 to 94): disconnects the user from the manager state, then broadcasts
a user_left envelope carrying the post-removal participant list to the
call, with no excluded user (the leaver's own websocket was already
removed from the call's connections). Returns the new state and the
deliveries. -/
def video_disconnect_flow (broken : List Nat) (call uid : String)
    (s : VideoState) : VideoState × List (Nat × Envelope) :=
  let s' := vdisconnect call uid s
  (s', send_to_call broken call (.user_left uid (membersOf s' call)) none s')

/-- Source `leave_video_call` (lines 267 to 292), relay side: the
endpoint updates the persisted participant list through the external
database collaborator (not relay state), then disconnects the user from
the manager only when `user_calls` maps the user to this very call. No
send_to_call occurs anywhere in the endpoint, so it produces no
deliveries. -/
def leave_video_call_flow (call uid : String) (s : VideoState) :
    VideoState × List (Nat × Envelope) :=
  match PyDict.lookup s.user_calls uid with
  | some current =>
    if current = call then (vdisconnect call uid s, []) else (s, [])
  | none => (s, [])

/-! Embedding of `handle_websocket_message` (messaging_router.py, lines
82 to 148), the send_message command path. -/

/-- The raw send_message command fields as read with dict.get: `none`
models a field that is missing or JSON null (both give Python None),
`some "undefined"` the literal string the frontend sometimes sends. -/
structure SendMsgCmd where
  event_id : Option String
  recipient_id : Option String
  content : String
deriving Repr, DecidableEq

/-- Lines 92 to 95 of messaging_router.py: the literal string
"undefined" is converted to None; None stays None. -/
def normField : Option String → Option String
  | some v => if v = "undefined" then none else some v
  | none => none

/-- Python truthiness of an optional string: None and the empty string
are falsy. -/
def pyTruthy : Option String → Bool
  | some v => v ≠ ""
  | none => false

/-- The outbound payload built at lines 130 to 133 and 141 to 144: a
new_message envelope wrapping the stored record, modelled as a tagged
string. -/
def wrapNewMessage (stored : String) : String :=
  "new_message:" ++ stored

/-- Source `handle_websocket_message` (lines 82 to 148) for a
send_message command. After normalizing the two target fields, a command
with both targets falsy returns before anything is persisted or sent.
Otherwise the message is persisted through the external database
collaborator, whose result is the parameter `stored` (`none` models a
failed insert, after which nothing is delivered). A truthy event_id
dispatches to `send_event_message` (participants supplied by the
external lookup), else a truthy recipient_id dispatches to
`send_personal_message`, whose exception on a broken websocket
propagates out of the handler. The Bool records whether a message was
persisted. -/
def handle_websocket_message (broken : List Nat)
    (participants : List (Option String)) (stored : Option String)
    (cmd : SendMsgCmd) (sender : String) (s : MsgState) :
    Except Unit (Bool × List (Nat × String)) :=
  let event_id := normField cmd.event_id
  let recipient_id := normField cmd.recipient_id
  if ¬ pyTruthy event_id ∧ ¬ pyTruthy recipient_id then .ok (false, [])
  else
    match stored with
    | none => .ok (false, [])
    | some sm =>
      if pyTruthy event_id then
        .ok (true, send_event_message broken (wrapNewMessage sm) participants sender s)
      else if pyTruthy recipient_id then
        (send_personal_message broken (wrapNewMessage sm) (recipient_id.getD "") s).map
          fun ds => (true, ds)
      else .ok (true, [])

/-! Concrete scenario states used by the claim theorems. -/

/-- Messaging state after user u connects twice, first with websocket 1,
then with websocket 2. -/
def msgReconnected : MsgState := connect 2 "u" (connect 1 "u" MsgState.empty)

/-- Messaging state with users A (websocket 1) and B (websocket 2)
connected. -/
def msgAB : MsgState := connect 2 "B" (connect 1 "A" MsgState.empty)

/-- Video state after users a, b, c join call1 with websockets 1, 2, 3. -/
def videoAbc : VideoState :=
  vconnect 3 "call1" "c" (vconnect 2 "call1" "b" (vconnect 1 "call1" "a" VideoState.empty))

/-- Video state after user u joins call c1 (websocket 1) and then joins
call c2 (websocket 2). -/
def videoTwoCalls : VideoState :=
  vconnect 2 "c2" "u" (vconnect 1 "c1" "u" VideoState.empty)

/-! Claim C1: single-call-at-a-time on join. -/

/-- Claim C1 counterexample: after u joins c1 and then joins the
different call c2, u is still in c1's member set as well as in c2's, so
u does not appear in exactly one call's member set as the claim states;
the inverse map does point at c2. -/
theorem C1_counterexample :
    membersOf videoTwoCalls "c1" = ["u"] ∧
    membersOf videoTwoCalls "c2" = ["u"] ∧
    PyDict.lookup videoTwoCalls.user_calls "u" = some "c2" := by
  decide

/-- `vconnect` into call c2 leaves the member list of every other call
untouched. -/
theorem membersOf_vconnect_ne (s : VideoState) (ws : Nat) (c2 u c : String)
    (h : c ≠ c2) : membersOf (vconnect ws c2 u s) c = membersOf s c := by
  simp only [membersOf, vconnect]
  by_cases hc : PyDict.containsKey s.call_participants c2 = true
  · simp only [hc, if_true]
    by_cases hm : u ∈ (PyDict.lookup s.call_participants c2).getD []
    · simp [hm]
    · simp [hm, PyDict.lookup_setItem_ne h]
  · simp only [hc, if_false]
    simp [PyDict.lookup_setItem_self, PyDict.lookup_setItem_ne h]

/-- After `vconnect` into call c, the user is in c's member list. -/
theorem mem_membersOf_vconnect_self (s : VideoState) (ws : Nat) (c u : String) :
    u ∈ membersOf (vconnect ws c u s) c := by
  simp only [membersOf, vconnect]
  by_cases hc : PyDict.containsKey s.call_participants c = true
  · simp only [hc, if_true]
    by_cases hm : u ∈ (PyDict.lookup s.call_participants c).getD []
    · simp [hm]
    · simp [hm, PyDict.lookup_setItem_self]
  · simp only [hc, if_false]
    simp [PyDict.lookup_setItem_self]

/-- Claim C1 amended: `VideoConnectionManager.connect` does not remove
the stale membership. When a member u of call c1 joins a different call
c2, u afterwards appears in BOTH c1's and c2's member sets (the stale
member-set entry survives); only the inverse map is repointed at c2. -/
theorem C1_amended (s : VideoState) (ws : Nat) (c1 c2 u : String)
    (hne : c2 ≠ c1) (hmem : u ∈ membersOf s c1) :
    u ∈ membersOf (vconnect ws c2 u s) c1 ∧
    u ∈ membersOf (vconnect ws c2 u s) c2 ∧
    PyDict.lookup (vconnect ws c2 u s).user_calls u = some c2 :=
  ⟨(membersOf_vconnect_ne s ws c2 u c1 (Ne.symm hne)).symm ▸ hmem,
   mem_membersOf_vconnect_self s ws c2 u,
   PyDict.lookup_setItem_self _ _ _⟩

/-- Claim C1 amended, witness at the concrete two-call scenario. -/
theorem C1_witness :
    "u" ∈ membersOf (vconnect 2 "c2" "u" (vconnect 1 "c1" "u" VideoState.empty)) "c1" ∧
    "u" ∈ membersOf (vconnect 2 "c2" "u" (vconnect 1 "c1" "u" VideoState.empty)) "c2" ∧
    PyDict.lookup (vconnect 2 "c2" "u" (vconnect 1 "c1" "u" VideoState.empty)).user_calls "u" =
        some "c2" :=
  C1_amended (vconnect 1 "c1" "u" VideoState.empty) 2 "c1" "c2" "u"
    (by decide) (by decide)

/-! Claim C2: sole-connection-per-user on register. -/

/-- Claim C2 counterexample: user u connects with websocket 1 and then
again with websocket 2; `user_connections` points at 2, but websocket 1
was neither closed nor removed from `active_connections`, and a
broadcast still delivers to it — contradicting the claim that the prior
connection no longer receives any delivery. -/
theorem C2_counterexample :
    broadcast [] "m" msgReconnected = .ok [(1, "m"), (2, "m")] ∧
    PyDict.lookup msgReconnected.user_connections "u" = some 2 :=
  ⟨rfl, by decide⟩

/-- With no broken websocket, `sendAll` delivers the payload to every
websocket of the list in order. -/
theorem sendAll_ok_of_no_broken (msg : String) (l : List Nat) :
    sendAll [] msg l = .ok (l.map fun ws => (ws, msg)) := by
  induction l with
  | nil => rfl
  | cons ws t ih => simp [sendAll, ih]

/-- Claim C2 amended: a second connect installs the new websocket as the
sole `user_connections` entry for the user (personal sends now target
it), but the prior websocket is neither evicted from
`active_connections` nor signalled to close: it remains in the list and
a subsequent `broadcast` still delivers to it. -/
theorem C2_amended (s : MsgState) (u : String) (w1 w2 : Nat) (msg : String) :
    PyDict.lookup (connect w2 u (connect w1 u s)).user_connections u = some w2 ∧
    (connect w2 u (connect w1 u s)).active_connections =
      s.active_connections ++ [w1] ++ [w2] ∧
    broadcast [] msg (connect w2 u (connect w1 u s)) =
      .ok ((s.active_connections ++ [w1] ++ [w2]).map fun ws => (ws, msg)) := by
  refine ⟨?_, ?_, ?_⟩
  · simp [connect, PyDict.lookup_setItem_self]
  · simp [connect]
  · simp [broadcast, connect, sendAll_ok_of_no_broken]

/-! Claim C3: unregister guarded by handle identity. -/

/-- Claim C3 counterexample: u reconnected (websocket 1 replaced by 2);
a late disconnect carrying the stale handle 1 nevertheless deletes the
entry for u, instead of leaving the newer mapping to 2 intact as the
claim states. -/
theorem C3_counterexample :
    PyDict.lookup msgReconnected.user_connections "u" = some 2 ∧
    PyDict.lookup (disconnect 1 "u" msgReconnected).user_connections "u" = none := by
  decide

/-- Claim C3 amended: `ConnectionManager.disconnect` removes the
`user_connections` entry for the user unconditionally — it never
compares the stored websocket with the handle being removed, so after
any disconnect for u (stale handle or not) no connection is registered
for u. -/
theorem C3_amended (s : MsgState) (ws : Nat) (u : String) :
    PyDict.lookup (disconnect ws u s).user_connections u = none := by
  simp [disconnect, PyDict.lookup_delItem_self]

/-! Claim C4: leave prunes emptied member sets. -/

/-- Video state with the single user u in call c. -/
def videoSolo : VideoState := vconnect 1 "c" "u" VideoState.empty

/-- Claim C4 counterexample: the only member u of call c leaves; the
table still maps c to an (empty) member set — the emptied entry is not
pruned, so a call identifier does map to an empty member set. -/
theorem C4_counterexample :
    PyDict.lookup (vdisconnect "c" "u" videoSolo).call_participants "c" =
      some [] := by
  decide

/-- Claim C4 amended: `VideoConnectionManager.disconnect` removes the
user from the call's member list and from the inverse map, but never
prunes the call's entry: the call identifier keeps its (possibly empty)
member-set entry in the table. -/
theorem C4_amended (s : VideoState) (c u : String) :
    membersOf (vdisconnect c u s) c = (membersOf s c).erase u ∧
    PyDict.lookup (vdisconnect c u s).user_calls u = none ∧
    PyDict.containsKey (vdisconnect c u s).call_participants c =
      PyDict.containsKey s.call_participants c := by
  refine ⟨?_, ?_, ?_⟩
  · cases hms : PyDict.lookup s.call_participants c with
    | none => simp [membersOf, vdisconnect, hms]
    | some ms =>
      by_cases hm : u ∈ ms
      · simp [membersOf, vdisconnect, hms, hm, PyDict.lookup_setItem_self]
      · simp [membersOf, vdisconnect, hms, hm, List.erase_of_not_mem hm]
  · simp [vdisconnect, PyDict.lookup_delItem_self]
  · cases hms : PyDict.lookup s.call_participants c with
    | none => simp [vdisconnect, hms]
    | some ms =>
      by_cases hm : u ∈ ms
      · simp [PyDict.containsKey, vdisconnect, hms, hm, PyDict.lookup_setItem_self]
      · simp [vdisconnect, hms, hm]

/-! Claim C5: send reports delivered/not-delivered instead of raising. -/

/-- Claim C5 counterexample: u is registered with websocket 1 and that
websocket is broken; `send_personal_message` performs the send with no
try/except, so the delivery failure raises to the caller instead of
being returned as a not-delivered outcome. -/
theorem C5_counterexample :
    send_personal_message [1] "m" "u" (connect 1 "u" MsgState.empty) =
      .error () := rfl

/-- Claim C5 amended: `send_personal_message` returns no
delivered/not-delivered outcome. When no connection is registered for
the user — in particular after any disconnect of that user — it delivers
nothing and raises nothing (a silent no-op); when the registered
connection is broken, the delivery exception propagates to the caller. -/
theorem C5_amended (s : MsgState) (ws w : Nat) (u : String)
    (broken : List Nat) (msg : String) :
    send_personal_message broken msg u (disconnect ws u s) = .ok [] ∧
    (PyDict.lookup s.user_connections u = some w → w ∈ broken →
      send_personal_message broken msg u s = .error ()) := by
  constructor
  · simp [send_personal_message, disconnect, PyDict.lookup_delItem_self]
  · intro hl hb
    simp [send_personal_message, hl, hb]

/-- Claim C5 amended, witness: after disconnecting u the send is a
silent no-op, and with a broken registered websocket the send raises. -/
theorem C5_witness :
    send_personal_message [1] "m" "u" (disconnect 0 "u" MsgState.empty) = .ok [] ∧
    send_personal_message [1] "m" "u" (connect 1 "u" MsgState.empty) = .error () :=
  ⟨(C5_amended MsgState.empty 0 1 "u" [1] "m").1,
   (C5_amended (connect 1 "u" MsgState.empty) 0 1 "u" [1] "m").2
     (by decide) (by decide)⟩

/-! Claim C6: per-recipient independence of fan-out sends. -/

/-- Claim C6 counterexample: users A (websocket 1) and B (websocket 2)
are both connected, websocket 1 is broken; the event fan-out of
`send_event_message` to participants A and B delivers nothing at all:
the failing send to A raises into the single try/except wrapped around
the whole loop, so the attempt to deliver to the healthy remaining
recipient B never happens. -/
theorem C6_counterexample :
    send_event_message [1] "m" [some "A", some "B"] "S" msgAB = [] ∧
    PyDict.lookup msgAB.user_connections "B" = some 2 := by
  decide

/-- Claim C6 amended: the call broadcast `send_to_call` is per-recipient
independent — each send has its own try/except, so every non-excluded
recipient whose websocket is not broken receives the envelope no matter
which other recipients fail. The event fan-out `send_event_message` is
not: its single loop-wide try/except makes the first failing send abort
the remaining recipients (as the concrete conjunct shows), though no
exception escapes to the caller. -/
theorem C6_amended :
    (∀ (broken : List Nat) (env : Envelope) (excl : Option String)
        (items : List (String × Nat)) (uid : String) (ws : Nat),
        (uid, ws) ∈ items → ws ∉ broken → some uid ≠ excl →
        (ws, env) ∈ sendToItems broken env excl items) ∧
    send_event_message [1] "m" [some "A", some "B"] "S" msgAB = [] := by
  constructor
  · intro broken env excl items uid ws
    induction items with
    | nil => intro hmem _ _; simp at hmem
    | cons p t ih =>
      intro hmem hnb hne
      rcases List.mem_cons.mp hmem with h | h
      · subst h
        simp [sendToItems, hne, hnb]
      · have hrec := ih h hnb hne
        by_cases he : some p.1 ≠ excl
        · by_cases hb : p.2 ∈ broken
          · simpa [sendToItems, he, hb] using hrec
          · simp [sendToItems, he, hb, hrec]
        · simpa [sendToItems, he] using hrec
  · decide

/-- Claim C6 amended, witness: a healthy, non-excluded recipient
receives the call broadcast even with another websocket broken. -/
theorem C6_witness :
    (7, Envelope.call_ended "z") ∈
      sendToItems [5] (Envelope.call_ended "z") none [("y", 5), ("x", 7)] :=
  C6_amended.1 [5] (.call_ended "z") none [("y", 5), ("x", 7)] "x" 7
    (by decide) (by decide) (by decide)

/-! Claim C7: event fan-out target selection. -/

/-- With every registered websocket of the participants live, the event
fan-out loop delivers to exactly the participants that are non-empty,
differ from the sender and have a registered connection, in list order. -/
theorem sendEventLoop_eq_filterMap (broken : List Nat) (msg sender : String)
    (conns : List (String × Nat)) (ps : List (Option String))
    (hlive : ∀ u ws, some u ∈ ps → PyDict.lookup conns u = some ws → ws ∉ broken) :
    sendEventLoop broken msg sender conns ps =
      ps.filterMap (fun p =>
        match p with
        | some u =>
          if u ≠ "" ∧ u ≠ sender then
            (PyDict.lookup conns u).map fun ws => (ws, msg)
          else none
        | none => none) := by
  induction ps with
  | nil => rfl
  | cons p t ih =>
    have ht : ∀ u ws, some u ∈ t → PyDict.lookup conns u = some ws → ws ∉ broken :=
      fun u ws hu hw => hlive u ws (List.mem_cons_of_mem _ hu) hw
    cases p with
    | none => simpa [sendEventLoop] using ih ht
    | some u =>
      by_cases hcond : u ≠ "" ∧ u ≠ sender
      · cases hlk : PyDict.lookup conns u with
        | none => simp [sendEventLoop, hcond, hlk, ih ht]
        | some ws =>
          have hnb : ws ∉ broken := hlive u ws (List.mem_cons_self _ _) hlk
          simp [sendEventLoop, hcond, hlk, hnb, ih ht]
      · simp [sendEventLoop, hcond, ih ht]

/-- Claim C7: when every registered connection of the event's
participants is live, `send_event_message` delivers exactly one copy to
each participant that is non-empty, is not the sender, and has a
registered connection (the filterMap contains one entry per such
participant of the duplicate-free participant set), and nothing to the
sender or to unconnected participants. Concretely, for participants A,
B, C with only A and B connected, exactly the two deliveries to A's and
B's websockets occur and C's absence causes no error. -/
theorem C7_theorem (broken : List Nat) (msg sender : String) (s : MsgState)
    (ps : List (Option String))
    (hlive : ∀ u ws, some u ∈ ps →
      PyDict.lookup s.user_connections u = some ws → ws ∉ broken) :
    send_event_message broken msg ps sender s =
      ps.filterMap (fun p =>
        match p with
        | some u =>
          if u ≠ "" ∧ u ≠ sender then
            (PyDict.lookup s.user_connections u).map fun ws => (ws, msg)
          else none
        | none => none) ∧
    send_event_message [] "m" [some "A", some "B", some "C"] "S" msgAB =
      [(1, "m"), (2, "m")] :=
  ⟨sendEventLoop_eq_filterMap broken msg sender s.user_connections ps hlive,
   by decide⟩

/-- Claim C7 witness at the concrete three-participant scenario of the
spec, with no broken websocket. -/
theorem C7_witness :
    send_event_message [] "mm" [some "A", some "B", some "C"] "S" msgAB =
      ([some "A", some "B", some "C"] : List (Option String)).filterMap (fun p =>
        match p with
        | some u =>
          if u ≠ "" ∧ u ≠ "S" then
            (PyDict.lookup msgAB.user_connections u).map fun ws => (ws, "mm")
          else none
        | none => none) :=
  (C7_theorem [] "mm" "S" msgAB [some "A", some "B", some "C"]
    (by intro u ws hu hw; simp)).1

/-! Claim C8: user_left broadcast on every leave path. -/

/-- Claim C8 counterexample: users a, b, c are in call1; b leaves via
the explicit leave endpoint (`leave_video_call`). The member set is
updated to a, c — but the endpoint performs no send_to_call, so the
remaining members a and c receive zero user_left envelopes instead of
exactly one each. -/
theorem C8_counterexample :
    (leave_video_call_flow "call1" "b" videoAbc).2 = [] ∧
    membersOf (leave_video_call_flow "call1" "b" videoAbc).1 "call1" = ["a", "c"] := by
  decide

/-- Claim C8 amended: only the websocket-disconnect path broadcasts. On
that path every remaining registered connection of the call receives
exactly one copy (first conjunct: the no-failure broadcast maps each
remaining connection to one delivery), and on the spec's scenario —
a, b, c in call1, b drops — a and c each receive exactly one user_left
envelope carrying b and the updated list a, c, with the member set now
a, c. The explicit leave endpoint, by contrast, delivers no user_left
envelope to anyone, ever (last conjunct). -/
theorem C8_amended :
    (∀ (env : Envelope) (inner : List (String × Nat)),
        sendToItems [] env none inner = inner.map fun p => (p.2, env)) ∧
    (video_disconnect_flow [] "call1" "b" videoAbc).2 =
      [(1, .user_left "b" ["a", "c"]), (3, .user_left "b" ["a", "c"])] ∧
    membersOf (video_disconnect_flow [] "call1" "b" videoAbc).1 "call1" = ["a", "c"] ∧
    (∀ (call uid : String) (s : VideoState),
        (leave_video_call_flow call uid s).2 = []) := by
  refine ⟨?_, by decide, by decide, ?_⟩
  · intro env inner
    induction inner with
    | nil => rfl
    | cons p t ih => simp [sendToItems, ih]
  · intro call uid s
    simp only [leave_video_call_flow]
    split
    · split <;> rfl
    · rfl

/-! Claim C9: offer and answer are unicast to the named target only. -/

/-- `send_to_user` delivers through the nested (call, user) lookup that
`registeredConn` performs. -/
theorem send_to_user_eq_registeredConn (broken : List Nat) (call uid : String)
    (env : Envelope) (s : VideoState) :
    send_to_user broken call uid env s =
      match registeredConn s call uid with
      | some ws => if ws ∈ broken then [] else [(ws, env)]
      | none => [] := by
  unfold send_to_user registeredConn
  cases PyDict.lookup s.active_connections call with
  | none => rfl
  | some inner => rfl

/-- Claim C9: an offer or answer envelope naming target t is forwarded
to nobody when t has no registered connection in the call (no delivery,
no error), and to exactly the single websocket registered for t in that
call otherwise — no other call member receives it. -/
theorem C9_theorem (broken : List Nat) (s : VideoState)
    (call sender t sdp : String) :
    (registeredConn s call t = none →
      handle_video_message broken (.offer (some t) sdp) call sender s = [] ∧
      handle_video_message broken (.answer (some t) sdp) call sender s = []) ∧
    (∀ ws, registeredConn s call t = some ws → ws ∉ broken → t ≠ "" →
      handle_video_message broken (.offer (some t) sdp) call sender s =
        [(ws, .offerFwd sdp sender)] ∧
      handle_video_message broken (.answer (some t) sdp) call sender s =
        [(ws, .answerFwd sdp sender)]) := by
  constructor
  · intro hnone
    constructor <;> simp [handle_video_message, send_to_user_eq_registeredConn, hnone]
  · intro ws hws hnb ht
    constructor <;>
      simp [handle_video_message, send_to_user_eq_registeredConn, hws, hnb, ht]

/-- Claim C9 witness: in call1 with members a, b, c, an offer or answer
to the absent target x delivers nothing, and to the present target b
delivers exactly one envelope to b's websocket. -/
theorem C9_witness :
    (handle_video_message [] (.offer (some "x") "sdp") "call1" "a" videoAbc = [] ∧
     handle_video_message [] (.answer (some "x") "sdp") "call1" "a" videoAbc = []) ∧
    (handle_video_message [] (.offer (some "b") "sdp") "call1" "a" videoAbc =
        [(2, .offerFwd "sdp" "a")] ∧
     handle_video_message [] (.answer (some "b") "sdp") "call1" "a" videoAbc =
        [(2, .answerFwd "sdp" "a")]) :=
  ⟨(C9_theorem [] videoAbc "call1" "a" "x" "sdp").1 (by decide),
   (C9_theorem [] videoAbc "call1" "a" "b" "sdp").2 2 (by decide) (by decide)
     (by decide)⟩

/-! Claim C10: reject a send_message with both targets absent. -/

/-- Claim C10: a send_message command whose event_id and recipient_id
are each missing, null, or the literal string "undefined" is rejected
before relay: the handler returns with nothing persisted (false) and no
delivery to any connection. -/
theorem C10_theorem (broken : List Nat) (participants : List (Option String))
    (stored : Option String) (cmd : SendMsgCmd) (sender : String) (s : MsgState)
    (he : cmd.event_id = none ∨ cmd.event_id = some "undefined")
    (hr : cmd.recipient_id = none ∨ cmd.recipient_id = some "undefined") :
    handle_websocket_message broken participants stored cmd sender s =
      .ok (false, []) := by
  have he' : normField cmd.event_id = none := by
    rcases he with h | h <;> simp [normField, h]
  have hr' : normField cmd.recipient_id = none := by
    rcases hr with h | h <;> simp [normField, h]
  simp [handle_websocket_message, he', hr', pyTruthy]

/-- Claim C10 witness: a command with a missing event_id and the literal
"undefined" recipient_id is rejected with nothing stored or sent. -/
theorem C10_witness :
    handle_websocket_message [] [] (some "st")
      ⟨none, some "undefined", "hi"⟩ "u" MsgState.empty = .ok (false, []) :=
  C10_theorem [] [] (some "st") ⟨none, some "undefined", "hi"⟩ "u" MsgState.empty
    (Or.inl rfl) (Or.inr rfl)

end Conduit
